import Mathlib

/-!
# Streaming chat pipeline: shallow embedding and verification

This development embeds the streaming chat core of the repository in Lean 4:

* `Stream` namespace — the Transport layer, `streamChatMessage` in
  `frontend/src/lib/api.ts` (error composition on a failed start, and the
  SSE chunk-parsing loop that forwards `data: ` frames until `[DONE]`).
* `Chat` namespace — the Session Controller, `ChatPage` in
  `frontend/src/app/chat/page.tsx` (`handleSubmit`, the retry button
  handler, `applyStreamError`, and per-fragment transcript updates).

Byte-level decoding is modelled at the text level: the reader yields a list
of already-decoded text chunks, exactly as the repository's own stream test
does with its pass-through `FakeTextDecoder`.
-/

namespace Stream

/-- The sentinel payload that ends a stream (`api.ts`: `if (data === "[DONE]") return`). -/
def doneSentinel : String := "[DONE]"

/-- The frame marker of a significant SSE record (`api.ts`: `line.startsWith("data: ")`). -/
def dataMarker : String := "data: "

/-- Normalization of the `X-Request-ID` header lookup:
`headers.get("X-Request-ID") || undefined` maps both a missing header and an
empty header value to `undefined`. -/
def headerRequestId (header : Option String) : Option String :=
  match header with
  | some h => if h = "" then none else some h
  | none => none

/-- The error message thrown by `streamChatMessage` when the response is not ok
or has no consumable body (`api.ts` lines 287–295):
`message = errorText || "Failed to start stream"`, then
`requestId ? message + " (request_id=" + requestId + ")" : message`. -/
def streamStartError (errorText : String) (header : Option String) : String :=
  let message := if errorText = "" then "Failed to start stream" else errorText
  match headerRequestId header with
  | some id => message ++ " (request_id=" ++ id ++ ")"
  | none => message

/-- `chunk.split("\n\n")` from `api.ts` line 310, over character lists: scan
left to right, cutting at every (non-overlapping) occurrence of two
consecutive newlines. `acc` holds the current piece, reversed. -/
def splitNN (acc : List Char) : List Char → List (List Char)
  | [] => [acc.reverse]
  | '\n' :: '\n' :: rest => acc.reverse :: splitNN [] rest
  | c :: rest => splitNN (c :: acc) rest

/-- One line of the chunk loop body (`api.ts` lines 311–317): a line is
significant only with the `"data: "` prefix; its payload is the rest of the
line (`line.slice(6)`). -/
def framePayload (line : List Char) : Option (List Char) :=
  if dataMarker.data.isPrefixOf line then some (line.drop 6) else none

/-- Process the lines of one decoded chunk in order, collecting forwarded
fragments; the `Bool` records whether the `[DONE]` sentinel was hit, which
aborts the whole stream (the `return` in `api.ts` line 314). -/
def processLines : List (List Char) → List String × Bool
  | [] => ([], false)
  | l :: ls =>
    match framePayload l with
    | none => processLines ls
    | some d =>
      if d = doneSentinel.data then ([], true)
      else
        let r := processLines ls
        (String.mk d :: r.1, r.2)

/-- The fragments forwarded from a single decoded chunk: the chunk is split on
the double-newline delimiter and each piece is examined independently
(`api.ts` line 310: `chunk.split("\n\n")`). -/
def chunkFrames (chunk : String) : List String × Bool :=
  processLines (splitNN [] chunk.data)

/-- The full reader loop of `streamChatMessage` (`api.ts` lines 305–318): each
decoded chunk is split and scanned on its own; `[DONE]` exits the function,
discarding any remaining chunks. -/
def processChunks : List String → List String
  | [] => []
  | c :: cs =>
    let r := chunkFrames c
    if r.2 then r.1 else r.1 ++ processChunks cs

/-- The stream-start failure message as the amended specification words it:
the server text when there is any, otherwise the fixed fallback text, with
`" (request_id={id})"` appended exactly when a correlation id is present, and
no HTTP status component. Written from the spec words, to be compared with
`streamStartError` from the source. -/
def specStreamFailureMessage (serverText : String) (requestId : Option String) : String :=
  let base := if serverText = "" then "Failed to start stream" else serverText
  if requestId.isSome then base ++ " (request_id=" ++ requestId.getD "" ++ ")" else base

end Stream

namespace Chat

/-- Message roles (`page.tsx`: `role: "user" | "assistant"`). -/
inductive Role where
  | user
  | assistant
deriving DecidableEq, Repr

/-- One citation of `ChatResponse["sources"]` (`lib/types.ts`): only the text
content is modelled; the `metadata` record is untyped JSON that no chat-page
operation reads or writes. -/
structure Citation where
  content : String
deriving DecidableEq, Repr

/-- A transcript entry (`page.tsx` interface `Message`). No modelled operation
ever sets `sources`; it is carried through spreads unchanged. -/
structure Msg where
  role : Role
  content : String
  sources : Option (List Citation) := none
deriving DecidableEq, Repr

/-- The fixed apology text of `applyStreamError` (`page.tsx` lines 44 and 50). -/
def apologyText : String := "I apologize, but I encountered an error. Please try again."

/-- The initial greeting Message (`page.tsx` lines 16–18). -/
def greetingMsg : Msg :=
  { role := .assistant
    content := "Hello! I'm your AI Real Estate Assistant. How can I help you find your dream property today?" }

/-- The component state of `ChatPage` (`useState` hooks, `page.tsx` lines 16–24).
The `input` field is the controlled text box value. -/
structure ChatState where
  messages : List Msg
  input : String
  isLoading : Bool
  sessionId : Option String
  requestId : Option String
  lastUserMessage : Option String
  errorMessage : Option String
deriving DecidableEq, Repr

/-- The state on first render (`page.tsx` lines 16–24). -/
def initialState : ChatState :=
  { messages := [greetingMsg]
    input := ""
    isLoading := false
    sessionId := none
    requestId := none
    lastUserMessage := none
    errorMessage := none }

/-- `updated[lastIdx] = f(updated[lastIdx])` for `lastIdx = length - 1`:
replace the last element of a list, leaving everything else alone. -/
def updateLast (f : Msg → Msg) : List Msg → List Msg
  | [] => []
  | [m] => [f m]
  | m :: rest => m :: updateLast f rest

/-- The `onChunk` transcript update (`page.tsx` lines 81–88): when the last
entry is an assistant Message, append the chunk to its content; otherwise the
transcript is returned unchanged. -/
def onChunkMessages (chunk : String) (l : List Msg) : List Msg :=
  match l.getLast? with
  | some m =>
    if m.role = .assistant then
      updateLast (fun m => { m with content := m.content ++ chunk }) l
    else l
  | none => l

/-- The transcript update of `applyStreamError` (`page.tsx` lines 38–52): if
the last entry is an assistant Message with empty content, its content becomes
the apology; otherwise a fresh apology assistant Message is appended. -/
def errorMessages (l : List Msg) : List Msg :=
  match l.getLast? with
  | some m =>
    if m.role = .assistant ∧ m.content = "" then
      updateLast (fun m => { m with content := apologyText }) l
    else l ++ [{ role := .assistant, content := apologyText }]
  | none => l ++ [{ role := .assistant, content := apologyText }]

/-- A character class of the capture group in `/request_id=([A-Za-z0-9_-]+)/i`. -/
def isIdChar (c : Char) : Bool :=
  ('A' ≤ c ∧ c ≤ 'Z') || ('a' ≤ c ∧ c ≤ 'z') || ('0' ≤ c ∧ c ≤ '9') || c = '_' || c = '-'

/-- The literal part of the pattern `/request_id=([A-Za-z0-9_-]+)/i`, lowercase. -/
def reqIdPat : List Char := "request_id=".data

/-- Case-insensitive prefix test: does `l` start with the (lowercase) pattern
`p`, comparing characters after `Char.toLower`? -/
def ciPrefix : List Char → List Char → Bool
  | [], _ => true
  | _ :: _, [] => false
  | p :: ps, c :: cs => (c.toLower = p) && ciPrefix ps cs

/-- `message.match(/request_id=([A-Za-z0-9_-]+)/i)`: scan for the first
position where the literal `request_id=` matches case-insensitively and is
followed by at least one id character; the capture is the maximal id-character
run there. Positions whose `+` cannot consume a character are skipped, as the
regex engine does. -/
def findReqId : List Char → Option String
  | [] => none
  | c :: cs =>
    if ciPrefix reqIdPat (c :: cs) then
      let captured := ((c :: cs).drop reqIdPat.length).takeWhile isIdChar
      if captured.isEmpty then findReqId cs else some (String.mk captured)
    else findReqId cs

/-- `applyStreamError` (`page.tsx` lines 31–53): record the error text, pull a
correlation id out of it when the pattern matches, and patch the transcript. -/
def applyStreamError (err : String) (s : ChatState) : ChatState :=
  let s := { s with errorMessage := some err }
  let s :=
    match findReqId err.data with
    | some id => { s with requestId := some id }
    | none => s
  { s with messages := errorMessages s.messages }

/-- The `onStart` callback of both attempts (`page.tsx` lines 90–92 and
164–166): `if (requestId) setRequestId(requestId)` — only a present, non-empty
id overwrites the stored one. -/
def onStartUpdate (reqId : Option String) (s : ChatState) : ChatState :=
  match reqId with
  | some r => if r = "" then s else { s with requestId := some r }
  | none => s

/-- Fold a list of delivered fragments into the state via the `onChunk`
update. -/
def applyFrags (frags : List String) (s : ChatState) : ChatState :=
  frags.foldl (fun s f => { s with messages := onChunkMessages f s.messages }) s

/-- Concatenation of a fragment list in delivery order. -/
def concatFrags : List String → String
  | [] => ""
  | f :: fs => f ++ concatFrags fs

/-- The observable behaviour of one `streamChatMessage` call, as the
controller sees it through its callbacks:
* `startFail err` — the promise rejects before `onStart` (non-ok response or
  missing body); no fragments are delivered and `err` is the thrown message;
* `run reqId frags result` — `onStart` fires with `reqId`, the fragments
  `frags` are delivered in order, then the promise resolves (`result = none`)
  or rejects with message `err` (`result = some err`). -/
inductive StreamRun where
  | startFail (err : String)
  | run (reqId : Option String) (frags : List String) (result : Option String)

/-- Drive one attempt from its callbacks (the `await streamChatMessage (...)`
of `page.tsx`, whose `onChunk`/`onStart` are the updates above, and whose
rejection is routed to `applyStreamError`). -/
def runAttempt (run : StreamRun) (s : ChatState) : ChatState :=
  match run with
  | .startFail err => applyStreamError err s
  | .run reqId frags result =>
    let s := onStartUpdate reqId s
    let s := applyFrags frags s
    match result with
    | none => s
    | some err => applyStreamError err s

/-- One request handed to Transport (`streamChatMessage`'s `ChatRequest`
argument; the `stream: true` flag added inside `api.ts` is constant). -/
structure TransportCall where
  message : String
  session_id : Option String
deriving DecidableEq, Repr

/-- The whitespace set of ECMAScript `String.prototype.trim` (WhiteSpace ∪
LineTerminator): ASCII blanks, NBSP, BOM, and the Unicode space separators. -/
def jsSpaceChars : List Char :=
  [' ', '\t', '\n', '\r', '\x0b', '\x0c', ' ', ' ', ' ', ' ',
   ' ', ' ', ' ', ' ', ' ', ' ', ' ', ' ',
   ' ', ' ', ' ', ' ', ' ', '　', '﻿']

/-- `input.trim()` with JavaScript semantics: strip leading and trailing
ECMAScript whitespace. -/
def jsTrim (s : String) : String :=
  String.mk (((s.data.dropWhile (jsSpaceChars.contains ·)).reverse.dropWhile
    (jsSpaceChars.contains ·)).reverse)

/-- `sessionId ?? crypto.randomUUID()` (`page.tsx` line 71): `fresh` is the
UUID the browser would mint, or `none` when `crypto.randomUUID` is
unavailable; `??` only falls through on a nullish stored id. -/
def lazySessionId (fresh stored : Option String) : Option String :=
  match stored with
  | some x => some x
  | none => fresh

/-- `if (sid && !sessionId) setSessionId(sid)` (`page.tsx` lines 72–74): the
stored id is set only when `sid` is truthy (present and non-empty) and no
truthy id was stored. -/
def storeSessionId (sid stored : Option String) : Option String :=
  match sid with
  | some x => if x ≠ "" ∧ (stored = none ∨ stored = some "") then some x else stored
  | none => stored

/-- `handleSubmit` (`page.tsx` lines 59–101), given the fresh UUID that
`crypto.randomUUID()` would produce and the observed behaviour of the stream.
Returns the final state together with the list of Transport invocations made
(empty when the guard rejects the submit). -/
def handleSubmit (fresh : Option String) (run : StreamRun) (s : ChatState) :
    ChatState × List TransportCall :=
  if jsTrim s.input = "" ∨ s.isLoading then (s, [])
  else
    let userMessage := jsTrim s.input
    let s1 := { s with
      input := ""
      messages := s.messages ++ [({ role := .user, content := userMessage } : Msg)]
      isLoading := true
      errorMessage := none
      lastUserMessage := some userMessage }
    let sid := lazySessionId fresh s1.sessionId
    let s2 := { s1 with sessionId := storeSessionId sid s1.sessionId }
    let s3 := { s2 with messages := s2.messages ++ [({ role := .assistant, content := "" } : Msg)] }
    let s4 := runAttempt run s3
    ({ s4 with isLoading := false },
     [{ message := userMessage, session_id := sid }])

/-- The Retry button handler (`page.tsx` lines 146–171): guarded on a known
last user text and not loading; clears the error, appends a fresh empty
assistant Message, and re-invokes Transport with the stored `lastUserMessage`
and the stored `sessionId` unchanged. -/
def retryClick (run : StreamRun) (s : ChatState) : ChatState × List TransportCall :=
  match s.lastUserMessage with
  | none => (s, [])
  | some last =>
    if s.isLoading then (s, [])
    else
      let s1 := { s with
        errorMessage := none
        isLoading := true
        messages := s.messages ++ [{ role := .assistant, content := "" }] }
      let s2 := runAttempt run s1
      ({ s2 with isLoading := false },
       [{ message := last, session_id := s.sessionId }])

/-- The user typing in the controlled input (`page.tsx` line 187:
`onChange={(e) => setInput(e.target.value)}`). -/
def setInput (t : String) (s : ChatState) : ChatState :=
  { s with input := t }

/-- The states the chat page can reach from first render, by typing,
submitting, and retrying, for any transport behaviour. -/
inductive Reachable : ChatState → Prop where
  | init : Reachable initialState
  | type {s} (t : String) : Reachable s → Reachable (setInput t s)
  | submit {s} (fresh : Option String) (run : StreamRun) :
      Reachable s → Reachable (handleSubmit fresh run s).1
  | retry {s} (run : StreamRun) :
      Reachable s → Reachable (retryClick run s).1

end Chat

namespace Chat

theorem string_append_assoc (a b c : String) : a ++ b ++ c = a ++ (b ++ c) := by
  apply String.ext
  simp

theorem string_append_empty (a : String) : a ++ "" = a := by
  apply String.ext
  simp

theorem updateLast_concat (f : Msg → Msg) (l : List Msg) (a : Msg) :
    updateLast f (l ++ [a]) = l ++ [f a] := by
  induction l with
  | nil => rfl
  | cons x xs ih =>
    cases xs with
    | nil => rfl
    | cons y ys => simpa [updateLast] using ih

theorem onChunkMessages_concat (c : String) (l : List Msg) (t : String)
    (src : Option (List Citation)) :
    onChunkMessages c (l ++ [⟨.assistant, t, src⟩]) = l ++ [⟨.assistant, t ++ c, src⟩] := by
  simp [onChunkMessages, List.getLast?_concat, updateLast_concat]

theorem applyFrags_messages (frags : List String) (s : ChatState) (l : List Msg)
    (t : String) (src : Option (List Citation))
    (h : s.messages = l ++ [⟨.assistant, t, src⟩]) :
    applyFrags frags s =
      { s with messages := l ++ [⟨.assistant, t ++ concatFrags frags, src⟩] } := by
  induction frags generalizing s t with
  | nil =>
    cases s
    simp_all [applyFrags, concatFrags, string_append_empty]
  | cons f fs ih =>
    have step : applyFrags (f :: fs) s =
        applyFrags fs { s with messages := onChunkMessages f s.messages } := rfl
    rw [step, h, onChunkMessages_concat,
      ih { s with messages := l ++ [⟨.assistant, t ++ f, src⟩] } (t ++ f) rfl]
    simp [concatFrags, string_append_assoc]

theorem errorMessages_concat_empty (l : List Msg) (src : Option (List Citation)) :
    errorMessages (l ++ [⟨.assistant, "", src⟩]) = l ++ [⟨.assistant, apologyText, src⟩] := by
  simp [errorMessages, List.getLast?_concat, updateLast_concat]

theorem errorMessages_concat_keep (l : List Msg) (m : Msg)
    (h : ¬(m.role = .assistant ∧ m.content = "")) :
    errorMessages (l ++ [m]) = (l ++ [m]) ++ [⟨.assistant, apologyText, none⟩] := by
  simp [errorMessages, List.getLast?_concat, h]

theorem applyStreamError_eq (err : String) (s : ChatState) :
    applyStreamError err s =
      { s with
        errorMessage := some err
        requestId := ((findReqId err.data).map some).getD s.requestId
        messages := errorMessages s.messages } := by
  unfold applyStreamError
  cases h : findReqId err.data <;> simp [h]

theorem string_empty_append (a : String) : "" ++ a = a := by
  apply String.ext
  simp

theorem onStartUpdate_eq (r : Option String) (s : ChatState) :
    onStartUpdate r s =
      { s with requestId := r.elim s.requestId (fun x => if x = "" then s.requestId else some x) } := by
  cases s
  cases r with
  | none => rfl
  | some x =>
    by_cases hx : x = "" <;> simp [onStartUpdate, hx]

theorem handleSubmit_run (fresh reqId : Option String) (frags : List String)
    (result : Option String) (s : ChatState)
    (h1 : ¬ jsTrim s.input = "") (h2 : s.isLoading = false) :
    handleSubmit fresh (.run reqId frags result) s =
      (let u := jsTrim s.input
       let sid := lazySessionId fresh s.sessionId
       let afterFrags : ChatState :=
         { s with
           input := ""
           isLoading := true
           errorMessage := none
           lastUserMessage := some u
           sessionId := storeSessionId sid s.sessionId
           requestId := reqId.elim s.requestId (fun x => if x = "" then s.requestId else some x)
           messages := s.messages ++ [⟨.user, u, none⟩, ⟨.assistant, concatFrags frags, none⟩] }
       ((match result with
         | none => { afterFrags with isLoading := false }
         | some err => { applyStreamError err afterFrags with isLoading := false }),
        [⟨u, sid⟩])) := by
  unfold handleSubmit
  rw [if_neg (by simp [h1, h2])]
  simp only [runAttempt, onStartUpdate_eq]
  rw [applyFrags_messages _ _ (s.messages ++ [⟨.user, jsTrim s.input, none⟩]) "" none
    (by simp)]
  cases result with
  | none => cases s; simp [string_empty_append]
  | some err => cases s; simp [string_empty_append]

theorem handleSubmit_startFail (fresh : Option String) (err : String) (s : ChatState)
    (h1 : ¬ jsTrim s.input = "") (h2 : s.isLoading = false) :
    handleSubmit fresh (.startFail err) s =
      (let u := jsTrim s.input
       let sid := lazySessionId fresh s.sessionId
       let s3 : ChatState :=
         { s with
           input := ""
           isLoading := true
           errorMessage := none
           lastUserMessage := some u
           sessionId := storeSessionId sid s.sessionId
           messages := s.messages ++ [⟨.user, u, none⟩, ⟨.assistant, "", none⟩] }
       ({ applyStreamError err s3 with isLoading := false }, [⟨u, sid⟩])) := by
  unfold handleSubmit
  rw [if_neg (by simp [h1, h2])]
  cases s
  simp only [runAttempt]
  simp

theorem retryClick_run (reqId : Option String) (frags : List String) (result : Option String)
    (s : ChatState) (last : String)
    (hl : s.lastUserMessage = some last) (h2 : s.isLoading = false) :
    retryClick (.run reqId frags result) s =
      (let afterFrags : ChatState :=
         { s with
           errorMessage := none
           isLoading := true
           requestId := reqId.elim s.requestId (fun x => if x = "" then s.requestId else some x)
           messages := s.messages ++ [⟨.assistant, concatFrags frags, none⟩] }
       ((match result with
         | none => { afterFrags with isLoading := false }
         | some err => { applyStreamError err afterFrags with isLoading := false }),
        [⟨last, s.sessionId⟩])) := by
  unfold retryClick
  rw [hl]
  simp only [h2, Bool.false_eq_true, if_false]
  simp only [runAttempt, onStartUpdate_eq]
  rw [applyFrags_messages _ _ s.messages "" none (by simp)]
  cases result with
  | none => cases s; simp [string_empty_append]
  | some err => cases s; simp [string_empty_append]

theorem retryClick_startFail (err : String) (s : ChatState) (last : String)
    (hl : s.lastUserMessage = some last) (h2 : s.isLoading = false) :
    retryClick (.startFail err) s =
      (let s1 : ChatState :=
         { s with
           errorMessage := none
           isLoading := true
           messages := s.messages ++ [⟨.assistant, "", none⟩] }
       ({ applyStreamError err s1 with isLoading := false }, [⟨last, s.sessionId⟩])) := by
  unfold retryClick
  rw [hl]
  simp only [h2, Bool.false_eq_true, if_false]
  simp only [runAttempt]

theorem errorMessages_keep (l : List Msg) (m : Msg) (hlast : l.getLast? = some m)
    (h : ¬(m.role = .assistant ∧ m.content = "")) :
    errorMessages l = l ++ [⟨.assistant, apologyText, none⟩] := by
  unfold errorMessages
  rw [hlast]
  simp [h]

end Chat

namespace Claims

open Chat

/-- Claim C7: a send whose text trims to empty, or issued while an attempt is
in flight, is a no-op — no Message appended, no Transport call, state
unchanged. -/
theorem C7_send_guard_noop (fresh : Option String) (run : StreamRun) (s : ChatState)
    (h : jsTrim s.input = "" ∨ s.isLoading = true) :
    handleSubmit fresh run s = (s, []) := by
  unfold handleSubmit
  rw [if_pos h]

/-- Witness for C7 at the whitespace-only input `"   "` on the initial state. -/
theorem C7_send_guard_noop_witness :
    handleSubmit (some "sid-1") (.run none ["x"] none)
        { initialState with input := "   " } =
      ({ initialState with input := "   " }, []) :=
  C7_send_guard_noop (some "sid-1") (.run none ["x"] none)
    { initialState with input := "   " } (Or.inl (by decide))

/-- Claim C2: for fragments `f1...fn` delivered via `onChunk` before the
stream's clean end, the trailing assistant Message's content equals their
concatenation in delivery order, and the controller returns to the non-busy
state with no error. -/
theorem C2_fragments_concatenate (fresh reqId : Option String) (frags : List String)
    (s : ChatState) (h1 : ¬ jsTrim s.input = "") (h2 : s.isLoading = false) :
    (handleSubmit fresh (.run reqId frags none) s).1.messages =
        s.messages ++ [⟨.user, jsTrim s.input, none⟩, ⟨.assistant, concatFrags frags, none⟩]
      ∧ (handleSubmit fresh (.run reqId frags none) s).1.isLoading = false
      ∧ (handleSubmit fresh (.run reqId frags none) s).1.errorMessage = none := by
  rw [handleSubmit_run fresh reqId frags none s h1 h2]
  simp

/-- Witness for C2: Scenario A — fragments `"Hello"`, `" world"`, then a clean
end, yield final content `"Hello world"` and a non-busy state. -/
theorem C2_fragments_concatenate_witness :
    (handleSubmit (some "sid-1") (.run none ["Hello", " world"] none)
          { initialState with input := "Hi" }).1.messages =
        [greetingMsg, ⟨.user, "Hi", none⟩, ⟨.assistant, "Hello world", none⟩]
      ∧ (handleSubmit (some "sid-1") (.run none ["Hello", " world"] none)
          { initialState with input := "Hi" }).1.isLoading = false := by
  have h := C2_fragments_concatenate (some "sid-1") none ["Hello", " world"]
    { initialState with input := "Hi" } (by decide) rfl
  exact ⟨h.1.trans (by decide), h.2.1⟩

/-- Counterexample to Claim C4 as stated: after the single delivered fragment
`""` (an empty SSE payload, which `streamChatMessage` forwards), a failure
finds the trailing assistant Message still empty and replaces its content with
the apology text, so the content does not remain the concatenation `""` of the
delivered fragments. -/
theorem C4_counterexample :
    (handleSubmit (some "sid-1") (.run none [""] (some "fail"))
          { initialState with input := "Hi" }).1.messages =
        [greetingMsg, ⟨.user, "Hi", none⟩, ⟨.assistant, apologyText, none⟩]
      ∧ apologyText ≠ concatFrags [""] := by
  decide

/-- Claim C4 (amended): for every failure after delivered fragments whose
concatenation is non-empty, the partial assistant entry keeps exactly that
concatenation, the error state is set, and nothing already in the transcript
is removed — the handler only appends the apology entry after it. -/
theorem C4_partial_preserved (fresh reqId : Option String) (frags : List String)
    (err : String) (s : ChatState)
    (h1 : ¬ jsTrim s.input = "") (h2 : s.isLoading = false)
    (h3 : ¬ concatFrags frags = "") :
    (handleSubmit fresh (.run reqId frags (some err)) s).1.messages =
        s.messages ++ [⟨.user, jsTrim s.input, none⟩,
          ⟨.assistant, concatFrags frags, none⟩, ⟨.assistant, apologyText, none⟩]
      ∧ (handleSubmit fresh (.run reqId frags (some err)) s).1.errorMessage = some err := by
  rw [handleSubmit_run fresh reqId frags (some err) s h1 h2]
  simp only [applyStreamError_eq]
  rw [errorMessages_keep _ ⟨.assistant, concatFrags frags, none⟩ (by simp) (by simp [h3])]
  simp

/-- Witness for C4 (amended): Scenario D — failure after fragment `"Partial"`;
the partial content survives and the apology is appended after it. -/
theorem C4_partial_preserved_witness :
    (handleSubmit (some "sid-1") (.run none ["Partial"] (some "mid-stream failure"))
          { initialState with input := "Hi" }).1.messages =
        [greetingMsg, ⟨.user, "Hi", none⟩, ⟨.assistant, "Partial", none⟩,
         ⟨.assistant, apologyText, none⟩]
      ∧ (handleSubmit (some "sid-1") (.run none ["Partial"] (some "mid-stream failure"))
          { initialState with input := "Hi" }).1.errorMessage = some "mid-stream failure" := by
  have h := C4_partial_preserved (some "sid-1") none ["Partial"] "mid-stream failure"
    { initialState with input := "Hi" } (by decide) rfl (by decide)
  exact ⟨h.1.trans (by decide), h.2⟩

/-- Claim C9: when a failure arrives and the trailing transcript entry is not
an empty assistant Message (it is an assistant entry with content, or a user
entry), `applyStreamError` appends one more assistant Message carrying the
apology text; in particular a mid-stream failure leaves the preserved partial
entry followed by the apology entry. -/
theorem C9_apology_appended (err : String) (s : ChatState) (m : Msg)
    (hlast : s.messages.getLast? = some m)
    (h : ¬(m.role = .assistant ∧ m.content = "")) :
    (applyStreamError err s).messages = s.messages ++ [⟨.assistant, apologyText, none⟩] := by
  rw [applyStreamError_eq]
  exact errorMessages_keep s.messages m hlast h

/-- Witness for C9 at a transcript ending in an assistant entry with the
non-empty partial content `"Partial"`. -/
theorem C9_apology_appended_witness :
    (applyStreamError "late failure"
        { initialState with
          messages := [greetingMsg, ⟨.user, "Hi", none⟩,
            ⟨.assistant, "Partial", none⟩] }).messages =
      [greetingMsg, ⟨.user, "Hi", none⟩, ⟨.assistant, "Partial", none⟩,
       ⟨.assistant, apologyText, none⟩] := by
  have h := C9_apology_appended "late failure"
    { initialState with
      messages := [greetingMsg, ⟨.user, "Hi", none⟩, ⟨.assistant, "Partial", none⟩] }
    ⟨.assistant, "Partial", none⟩ (by decide) (by decide)
  exact h.trans (by decide)

/-- Counterexample to Claim C8 as stated: a first attempt yields the id
`"req-1"`; a second attempt yields no correlation id at all (its `onStart`
carries none and its failure text `"plain failure"` matches no
`request_id=` pattern), yet the stored identifier still shows the previous
attempt's `"req-1"` — it is not overwritten per attempt. -/
theorem C8_counterexample :
    (handleSubmit (some "sid-2") (.run none [] (some "plain failure"))
          (setInput "again"
            (handleSubmit (some "sid-1") (.run (some "req-1") ["a"] none)
              { initialState with input := "hi" }).1)).1.requestId = some "req-1"
      ∧ findReqId "plain failure".data = none := by
  decide

/-- Claim C8 (amended): the stored correlation id is updated only by attempts
that yield one — an attempt whose `onStart` carries a non-empty id overwrites
the stored id, while an attempt that yields no id (no `onStart` id and no
`request_id=` pattern in its failure text) leaves the previously stored id in
place. -/
theorem C8_requestId_update (fresh : Option String) (frags : List String) (s : ChatState)
    (h1 : ¬ jsTrim s.input = "") (h2 : s.isLoading = false) :
    (∀ r : String, r ≠ "" →
      (handleSubmit fresh (.run (some r) frags none) s).1.requestId = some r)
    ∧ (∀ err : String, findReqId err.data = none →
      (handleSubmit fresh (.run none frags (some err)) s).1.requestId = s.requestId) := by
  constructor
  · intro r hr
    rw [handleSubmit_run fresh (some r) frags none s h1 h2]
    simp [hr]
  · intro err herr
    rw [handleSubmit_run fresh none frags (some err) s h1 h2]
    simp [applyStreamError_eq, herr]

/-- Witness for C8 (amended): an attempt yielding `"req-2"` overwrites the
stored `"req-1"`; an attempt yielding nothing leaves `"req-1"` stored. -/
theorem C8_requestId_update_witness :
    (handleSubmit (some "sid-1") (.run (some "req-2") [] none)
          { initialState with input := "hi", requestId := some "req-1" }).1.requestId
        = some "req-2"
      ∧ (handleSubmit (some "sid-1") (.run none [] (some "plain failure"))
          { initialState with input := "hi", requestId := some "req-1" }).1.requestId
        = some "req-1" := by
  have h := C8_requestId_update (some "sid-1") []
    { initialState with input := "hi", requestId := some "req-1" } (by decide) rfl
  exact ⟨h.1 "req-2" (by decide), (h.2 "plain failure" (by decide)).trans (by decide)⟩

/-- When the freshly minted UUID is not the empty string (as `randomUUID`
guarantees), the id stored by `setSessionId` coincides with the id actually
sent to Transport. -/
theorem storeSessionId_lazy (fresh stored : Option String) (hf : fresh ≠ some "") :
    storeSessionId (lazySessionId fresh stored) stored = lazySessionId fresh stored := by
  cases stored with
  | some x => by_cases hx : x = "" <;> simp [lazySessionId, storeSessionId, hx]
  | none =>
    cases fresh with
    | none => rfl
    | some f =>
      have hfe : ¬ f = "" := fun h => hf (by rw [h])
      simp [lazySessionId, storeSessionId, hfe]

/-- Claim C6: after a send that failed at stream start, clicking Retry invokes
Transport again with the very same trimmed user text and the very same session
identity as the failed attempt (no fresh id is minted), appends no user
Message — exactly one fresh assistant Message — and accumulates the retried
fragments into it, clearing the error and ending non-busy. -/
theorem C6_retry_same_session (fresh reqId2 : Option String) (e : String)
    (frags2 : List String) (s : ChatState)
    (h1 : ¬ jsTrim s.input = "") (h2 : s.isLoading = false) (hf : ¬ fresh = some "") :
    (handleSubmit fresh (.startFail e) s).2 =
        [⟨jsTrim s.input, lazySessionId fresh s.sessionId⟩]
      ∧ (retryClick (.run reqId2 frags2 none) (handleSubmit fresh (.startFail e) s).1).2 =
        [⟨jsTrim s.input, lazySessionId fresh s.sessionId⟩]
      ∧ (retryClick (.run reqId2 frags2 none) (handleSubmit fresh (.startFail e) s).1).1.messages =
        (handleSubmit fresh (.startFail e) s).1.messages
          ++ [⟨.assistant, concatFrags frags2, none⟩]
      ∧ (retryClick (.run reqId2 frags2 none)
          (handleSubmit fresh (.startFail e) s).1).1.errorMessage = none
      ∧ (retryClick (.run reqId2 frags2 none)
          (handleSubmit fresh (.startFail e) s).1).1.isLoading = false := by
  rw [handleSubmit_startFail fresh e s h1 h2]
  simp only [applyStreamError_eq]
  rw [retryClick_run reqId2 frags2 none _ (jsTrim s.input) (by simp) (by simp)]
  refine ⟨by simp, ?_, ?_, ?_, ?_⟩ <;>
    simp [storeSessionId_lazy fresh s.sessionId hf]

/-- Witness for C6: Scenario E — after a failed first attempt under fresh id
`"sid-1"`, the retry succeeds with fragment `"Fixed"`; both Transport calls
carry session id `"sid-1"`, and the retry appends exactly one assistant entry
holding `"Fixed"`. -/
theorem C6_retry_same_session_witness :
    (handleSubmit (some "sid-1") (.startFail "boom (request_id=req-123)")
          { initialState with input := "Retry test" }).2 =
        [⟨"Retry test", some "sid-1"⟩]
      ∧ (retryClick (.run none ["Fixed"] none)
          (handleSubmit (some "sid-1") (.startFail "boom (request_id=req-123)")
            { initialState with input := "Retry test" }).1).2 =
        [⟨"Retry test", some "sid-1"⟩]
      ∧ (retryClick (.run none ["Fixed"] none)
          (handleSubmit (some "sid-1") (.startFail "boom (request_id=req-123)")
            { initialState with input := "Retry test" }).1).1.messages =
        [greetingMsg, ⟨.user, "Retry test", none⟩, ⟨.assistant, apologyText, none⟩,
         ⟨.assistant, "Fixed", none⟩] := by
  have h := C6_retry_same_session (some "sid-1") none "boom (request_id=req-123)" ["Fixed"]
    { initialState with input := "Retry test" } (by decide) rfl (by decide)
  refine ⟨h.1.trans (by decide), h.2.1.trans (by decide), h.2.2.1.trans ?_⟩
  decide

/-- Counterexample to Claim C1 as stated: for the streaming attempt rejected
with HTTP status 500, body `"boom"` and header id `"req-999"`,
`streamChatMessage` throws `"boom (request_id=req-999)"` — the claimed format
`"{message} (status={n}, request_id={id})"` would give
`"boom (status=500, request_id=req-999)"`, which differs: the stream path
composes no status clause (unlike `handleResponse` on the non-streaming
path). -/
theorem C1_counterexample :
    Stream.streamStartError "boom" (some "req-999") = "boom (request_id=req-999)"
      ∧ Stream.streamStartError "boom" (some "req-999")
        ≠ "boom (status=500, request_id=req-999)" := by
  decide

/-- Claim C1 (amended): on a non-success response or a missing body, the
stream fails immediately with a message equal to the server text (or the fixed
`"Failed to start stream"` when that text is empty), suffixed with
`" (request_id={id})"` exactly when the `X-Request-ID` header is present and
non-empty; the HTTP status is not part of the message. `streamStartError` is
the source embedding; `specStreamFailureMessage` follows the amended spec
words. -/
theorem C1_stream_failure_message (errorText : String) (header : Option String) :
    Stream.streamStartError errorText header =
      Stream.specStreamFailureMessage errorText (Stream.headerRequestId header) := by
  unfold Stream.streamStartError Stream.specStreamFailureMessage
  cases h : Stream.headerRequestId header <;> simp

/-- Counterexample to Claim C3 as stated: the SSE text `"data: Hello\n\n"`
delivered as one chunk forwards `["Hello"]`, but the same text split at a
byte boundary inside the frame — chunks `"data: He"` and `"llo\n\n"` —
forwards `["He"]`: the parser keeps no carry-over between chunks, so the
forwarded fragments depend on the partition, not only on the accumulated
text. -/
theorem C3_counterexample :
    String.join ["data: Hello\n\n"] = String.join ["data: He", "llo\n\n"]
      ∧ Stream.processChunks ["data: Hello\n\n"] = ["Hello"]
      ∧ Stream.processChunks ["data: He", "llo\n\n"] = ["He"]
      ∧ Stream.processChunks ["data: Hello\n\n"]
        ≠ Stream.processChunks ["data: He", "llo\n\n"] := by
  decide

/-- Claim C3 (amended): the forwarded fragment sequence is a function of the
chunk partition, not of the accumulated text alone — each decoded chunk is
split on the double-newline delimiter and scanned independently, with no
buffer carried between chunks, so whenever no chunk reaches the `[DONE]`
sentinel the forwarded fragments are exactly the concatenation, in arrival
order, of the frames recognized inside each chunk separately. -/
theorem C3_per_chunk_frames (cs : List String)
    (h : ∀ c ∈ cs, (Stream.chunkFrames c).2 = false) :
    Stream.processChunks cs = cs.flatMap (fun c => (Stream.chunkFrames c).1) := by
  induction cs with
  | nil => rfl
  | cons c cs ih =>
    have hc : (Stream.chunkFrames c).2 = false := h c (by simp)
    have ht : ∀ x ∈ cs, (Stream.chunkFrames x).2 = false :=
      fun x hx => h x (by simp [hx])
    simp [Stream.processChunks, hc, ih ht]

/-- Witness for C3 (amended) on the split-frame chunk list: no chunk contains
the sentinel, and the forwarded fragments are the per-chunk frames
concatenated. -/
theorem C3_per_chunk_frames_witness :
    Stream.processChunks ["data: He", "llo\n\n", "data: x\n\n"] =
      (["data: He", "llo\n\n", "data: x\n\n"] : List String).flatMap
        (fun c => (Stream.chunkFrames c).1) := by
  exact C3_per_chunk_frames ["data: He", "llo\n\n", "data: x\n\n"] (by decide)

end Claims

namespace Chat

theorem space_not_mem_reqIdPat : ' ' ∉ reqIdPat := by decide

/-- The scan guard cannot see past a space: since no pattern character
matches `' '` case-insensitively, the guard's value at a position `t ++ ' ' :: x`
does not depend on `x`. -/
theorem ciPrefix_space_indep (t : List Char) (p x y : List Char) (hp : ' ' ∉ p) :
    ciPrefix p (t ++ ' ' :: x) = ciPrefix p (t ++ ' ' :: y) := by
  induction t generalizing p with
  | nil =>
    cases p with
    | nil => rfl
    | cons a ps =>
      have ha : ' ' ≠ a := fun h => hp (by rw [h]; exact List.mem_cons_self a ps)
      simp [ciPrefix, ha]
  | cons c t2 ih =>
    cases p with
    | nil => rfl
    | cons a ps =>
      have hps : ' ' ∉ ps := fun h => hp (List.mem_cons_of_mem a h)
      simp [ciPrefix, ih ps hps]

/-- A successful guard at `t ++ ' ' :: x` fits entirely inside `t`. -/
theorem ciPrefix_space_length (t : List Char) (p x : List Char) (hp : ' ' ∉ p)
    (h : ciPrefix p (t ++ ' ' :: x) = true) : p.length ≤ t.length := by
  induction t generalizing p with
  | nil =>
    cases p with
    | nil => simp
    | cons a ps =>
      exfalso
      have ha : ' ' ≠ a := fun hla => hp (by rw [hla]; exact List.mem_cons_self a ps)
      rw [List.nil_append] at h
      simp [ciPrefix] at h
      exact ha h.1
  | cons c t2 ih =>
    cases p with
    | nil => simp
    | cons a ps =>
      have hps : ' ' ∉ ps := fun hm => hp (List.mem_cons_of_mem a hm)
      have h2 : ciPrefix ps (t2 ++ ' ' :: x) = true := by
        simp [ciPrefix] at h
        exact h.2
      simpa using Nat.succ_le_succ (ih ps hps h2)

/-- `takeWhile` of an id-character class never crosses a space. -/
theorem takeWhile_append_space (p : Char → Bool) (a x : List Char) (hsp : p ' ' = false) :
    (a ++ ' ' :: x).takeWhile p = a.takeWhile p := by
  induction a with
  | nil => simp [hsp]
  | cons c a2 ih => by_cases hc : p c <;> simp [List.takeWhile_cons, hc, ih]

/-- `takeWhile` of a run of accepted characters ending at a rejected one. -/
theorem takeWhile_all_append (p : Char → Bool) (a : List Char) (c : Char) (x : List Char)
    (ha : ∀ y ∈ a, p y = true) (hc : p c = false) :
    (a ++ c :: x).takeWhile p = a := by
  induction a with
  | nil => simp [hc]
  | cons z a2 ih =>
    have hz : p z = true := ha z (List.mem_cons_self z a2)
    have ha2 : ∀ y ∈ a2, p y = true := fun y hy => ha y (List.mem_cons_of_mem z hy)
    simp [List.takeWhile_cons, hz, ih ha2]

theorem drop_append_left (n : Nat) (l m : List Char) (h : n ≤ l.length) :
    (l ++ m).drop n = l.drop n ++ m :=
  List.drop_append_of_le_length h

/-- One unfolding step of the scanner at a cons cell. -/
theorem findReqId_cons (c : Char) (cs : List Char) :
    findReqId (c :: cs) =
      if ciPrefix reqIdPat (c :: cs) then
        (if (((c :: cs).drop reqIdPat.length).takeWhile isIdChar).isEmpty then findReqId cs
         else some (String.mk (((c :: cs).drop reqIdPat.length).takeWhile isIdChar)))
      else findReqId cs := rfl

/-- Scanning skips an error prefix in which the pattern never matches with a
capture (hypothesis: scanning that prefix closed by `" ("` finds nothing), and
lands right after the `" ("` boundary. -/
theorem findReqId_skip (e r : List Char)
    (hclean : findReqId (e ++ [' ', '(']) = none) :
    findReqId (e ++ ' ' :: '(' :: r) = findReqId r := by
  induction e with
  | nil => rfl
  | cons c e2 ih =>
    have hsp : isIdChar ' ' = false := by decide
    have hpat : ' ' ∉ reqIdPat := space_not_mem_reqIdPat
    have hclean2 : findReqId (c :: (e2 ++ [' ', '('])) = none := hclean
    rw [findReqId_cons] at hclean2
    show findReqId (c :: (e2 ++ ' ' :: '(' :: r)) = findReqId r
    rw [findReqId_cons]
    have hguard : ciPrefix reqIdPat (c :: (e2 ++ ' ' :: '(' :: r)) =
        ciPrefix reqIdPat (c :: (e2 ++ [' ', '('])) := by
      simpa using ciPrefix_space_indep (c :: e2) reqIdPat ('(' :: r) ['('] hpat
    by_cases hb : ciPrefix reqIdPat (c :: (e2 ++ [' ', '('])) = true
    · rw [hguard, if_pos hb]
      rw [if_pos hb] at hclean2
      have hlen : reqIdPat.length ≤ (c :: e2).length :=
        ciPrefix_space_length (c :: e2) reqIdPat ['('] hpat (by simpa using hb)
      have hdropr : (c :: (e2 ++ ' ' :: '(' :: r)).drop reqIdPat.length =
          (c :: e2).drop reqIdPat.length ++ ' ' :: '(' :: r := by
        simpa using drop_append_left reqIdPat.length (c :: e2) (' ' :: '(' :: r) hlen
      have hdrop0 : (c :: (e2 ++ [' ', '('])).drop reqIdPat.length =
          (c :: e2).drop reqIdPat.length ++ ' ' :: '(' :: ([] : List Char) := by
        simpa using drop_append_left reqIdPat.length (c :: e2) [' ', '('] hlen
      have hcap : ((c :: (e2 ++ ' ' :: '(' :: r)).drop reqIdPat.length).takeWhile isIdChar =
          ((c :: (e2 ++ [' ', '('])).drop reqIdPat.length).takeWhile isIdChar := by
        rw [hdropr, hdrop0, takeWhile_append_space _ _ _ hsp, takeWhile_append_space _ _ _ hsp]
      rw [hcap]
      by_cases hemp :
          (((c :: (e2 ++ [' ', '('])).drop reqIdPat.length).takeWhile isIdChar).isEmpty = true
      · rw [if_pos hemp]
        rw [if_pos hemp] at hclean2
        exact ih hclean2
      · rw [if_neg hemp] at hclean2
        exact absurd hclean2 (by simp)
    · rw [hguard, if_neg hb]
      rw [if_neg hb] at hclean2
      exact ih hclean2

/-- Scanning the canonical suffix `request_id=<id>)` captures exactly the id,
provided the id is a non-empty run of id characters. -/
theorem findReqId_at_pattern (idc : List Char) (hid1 : idc ≠ [])
    (hid2 : ∀ c ∈ idc, isIdChar c = true) :
    findReqId ("request_id=".data ++ (idc ++ [')'])) = some (String.mk idc) := by
  have hstep : findReqId ("request_id=".data ++ (idc ++ [')'])) =
      (if ((idc ++ [')']).takeWhile isIdChar).isEmpty then
        findReqId ("equest_id=".data ++ (idc ++ [')']))
      else some (String.mk ((idc ++ [')']).takeWhile isIdChar))) := rfl
  rw [hstep, takeWhile_all_append isIdChar idc ')' [] hid2 (by decide)]
  simp [hid1]

/-- Splitting the composed failure message into the scan prefix and the
canonical `request_id` suffix. -/
theorem composed_message_data (e id : String) :
    (e ++ " (request_id=" ++ id ++ ")").data =
      e.data ++ ' ' :: '(' :: ("request_id=".data ++ (id.data ++ [')'])) := by
  have hdecomp : (" (request_id=" : String).data = ' ' :: '(' :: "request_id=".data := rfl
  have hparen : (")" : String).data = [')'] := rfl
  simp [hdecomp, hparen]

/-- Extraction round-trip: `applyStreamError`'s pattern scan recovers the id
that `streamStartError` composed, whenever the server text cannot itself feed
the pattern (scanning it closed by `" ("` finds nothing) and the id is a
non-empty run of id characters. -/
theorem findReqId_extract (e id : String)
    (hclean : findReqId (e.data ++ [' ', '(']) = none)
    (hid1 : id.data ≠ []) (hid2 : ∀ c ∈ id.data, isIdChar c = true) :
    findReqId (e ++ " (request_id=" ++ id ++ ")").data = some id := by
  rw [composed_message_data, findReqId_skip e.data _ hclean,
    findReqId_at_pattern id.data hid1 hid2]

/-- The composed stream-start failure message for a non-empty server text and
a present, non-empty header id. -/
theorem streamStartError_some (e id : String) (he : ¬ e = "") (hid : ¬ id = "") :
    Stream.streamStartError e (some id) = e ++ " (request_id=" ++ id ++ ")" := by
  simp [Stream.streamStartError, Stream.headerRequestId, he, hid]

/-- The error patch on a transcript whose trailing assistant entry is empty:
only that entry's content is replaced by the apology. -/
theorem errorMessages_pair (M : List Msg) (u : Msg) (src : Option (List Citation)) :
    errorMessages (M ++ [u, ⟨.assistant, "", src⟩]) =
      M ++ [u, ⟨.assistant, apologyText, src⟩] := by
  have h := errorMessages_concat_empty (M ++ [u]) src
  simpa using h

end Chat

namespace Claims

open Chat

/-- Claim C5: for a failure at stream start while the trailing assistant
Message is still empty — a non-success response with non-empty server text and
a present `X-Request-ID` header whose id is a non-empty run of id characters,
with the server text unable to feed the id pattern itself — the empty
assistant entry's content is replaced by the fixed apology, the error state
carries the composed message containing the server text, and the correlation
id is extracted from it and retained for display. -/
theorem C5_empty_failure_apology (fresh : Option String) (e id : String) (s : ChatState)
    (h1 : ¬ jsTrim s.input = "") (h2 : s.isLoading = false) (he : ¬ e = "")
    (hclean : findReqId (e.data ++ [' ', '(']) = none)
    (hid1 : id.data ≠ []) (hid2 : ∀ c ∈ id.data, isIdChar c = true) :
    (handleSubmit fresh (.startFail (Stream.streamStartError e (some id))) s).1.messages =
        s.messages ++ [⟨.user, jsTrim s.input, none⟩, ⟨.assistant, apologyText, none⟩]
      ∧ (handleSubmit fresh (.startFail (Stream.streamStartError e (some id))) s).1.errorMessage
        = some (e ++ " (request_id=" ++ id ++ ")")
      ∧ (handleSubmit fresh (.startFail (Stream.streamStartError e (some id))) s).1.requestId
        = some id := by
  have hid0 : ¬ id = "" := fun h => hid1 (by rw [h])
  rw [streamStartError_some e id he hid0,
    handleSubmit_startFail fresh _ s h1 h2]
  simp only [applyStreamError_eq, findReqId_extract e id hclean hid1 hid2]
  refine ⟨?_, by simp, by simp⟩
  simpa using errorMessages_pair s.messages ⟨.user, jsTrim s.input, none⟩ none

/-- Witness for C5: Scenario B — status 500 with body `"boom"` and header id
`"req-999"`; the empty assistant entry becomes the apology, the error message
is `"boom (request_id=req-999)"`, and `"req-999"` is stored for display. -/
theorem C5_empty_failure_apology_witness :
    (handleSubmit (some "sid-1") (.startFail (Stream.streamStartError "boom" (some "req-999")))
          { initialState with input := "Hi" }).1.messages =
        [greetingMsg, ⟨.user, "Hi", none⟩, ⟨.assistant, apologyText, none⟩]
      ∧ (handleSubmit (some "sid-1")
          (.startFail (Stream.streamStartError "boom" (some "req-999")))
          { initialState with input := "Hi" }).1.errorMessage =
        some "boom (request_id=req-999)"
      ∧ (handleSubmit (some "sid-1")
          (.startFail (Stream.streamStartError "boom" (some "req-999")))
          { initialState with input := "Hi" }).1.requestId = some "req-999" := by
  have h := C5_empty_failure_apology (some "sid-1") "boom" "req-999"
    { initialState with input := "Hi" } (by decide) rfl (by decide) (by decide)
    (by decide) (by decide)
  exact ⟨h.1.trans (by decide), h.2.1.trans (by decide), h.2.2⟩

end Claims

namespace Chat

theorem getLast?_append_right (M l2 : List Msg) (h : l2 ≠ []) :
    (M ++ l2).getLast? = l2.getLast? := by
  rw [List.getLast?_append]
  cases hl : l2.getLast? with
  | none =>
    simp [List.getLast?_eq_none_iff] at hl
    exact absurd hl h
  | some m => rfl

theorem updateLast_append_left (f : Msg → Msg) (M l2 : List Msg) (h : l2 ≠ []) :
    updateLast f (M ++ l2) = M ++ updateLast f l2 := by
  induction M with
  | nil => rfl
  | cons x xs ih =>
    cases hxl : xs ++ l2 with
    | nil =>
      exact absurd (List.append_eq_nil.mp hxl).2 h
    | cons y ys =>
      calc updateLast f ((x :: xs) ++ l2)
          = updateLast f (x :: (xs ++ l2)) := rfl
        _ = x :: updateLast f (xs ++ l2) := by rw [hxl]; simp [updateLast]
        _ = x :: (xs ++ updateLast f l2) := by rw [ih]
        _ = (x :: xs) ++ updateLast f l2 := rfl

theorem updateLast_ne_nil (f : Msg → Msg) (l : List Msg) (h : l ≠ []) :
    updateLast f l ≠ [] := by
  cases l with
  | nil => exact absurd rfl h
  | cons x xs => cases xs <;> simp [updateLast]

/-- `onChunk` extends a transcript that extends `M`: the prefix `M` is
untouched. -/
theorem onChunkMessages_extend (c : String) (M l2 : List Msg) (h : l2 ≠ []) :
    ∃ t, t ≠ [] ∧ onChunkMessages c (M ++ l2) = M ++ t := by
  cases hl : l2.getLast? with
  | none =>
    simp [List.getLast?_eq_none_iff] at hl
    exact absurd hl h
  | some m =>
    by_cases hr : m.role = .assistant
    · refine ⟨updateLast (fun m => { m with content := m.content ++ c }) l2,
        updateLast_ne_nil _ l2 h, ?_⟩
      simp only [onChunkMessages, getLast?_append_right M l2 h, hl, if_pos hr]
      exact updateLast_append_left _ _ _ h
    · refine ⟨l2, h, ?_⟩
      simp only [onChunkMessages, getLast?_append_right M l2 h, hl, if_neg hr]

/-- The error patch extends a transcript that extends `M`: the prefix `M` is
untouched. -/
theorem errorMessages_extend (M l2 : List Msg) (h : l2 ≠ []) :
    ∃ t, t ≠ [] ∧ errorMessages (M ++ l2) = M ++ t := by
  cases hl : l2.getLast? with
  | none =>
    simp [List.getLast?_eq_none_iff] at hl
    exact absurd hl h
  | some m =>
    by_cases hr : m.role = .assistant ∧ m.content = ""
    · refine ⟨updateLast (fun m => { m with content := apologyText }) l2,
        updateLast_ne_nil _ l2 h, ?_⟩
      simp only [errorMessages, getLast?_append_right M l2 h, hl, if_pos hr]
      exact updateLast_append_left _ _ _ h
    · refine ⟨l2 ++ [⟨.assistant, apologyText, none⟩], by simp, ?_⟩
      simp only [errorMessages, getLast?_append_right M l2 h, hl, if_neg hr]
      rw [List.append_assoc]

theorem applyFrags_extend (frags : List String) (s : ChatState) (M l2 : List Msg)
    (hm : s.messages = M ++ l2) (h : l2 ≠ []) :
    ∃ t, t ≠ [] ∧ (applyFrags frags s).messages = M ++ t := by
  induction frags generalizing s l2 with
  | nil => exact ⟨l2, h, hm⟩
  | cons f fs ih =>
    obtain ⟨t, ht, heq⟩ := onChunkMessages_extend f M l2 h
    exact ih { s with messages := onChunkMessages f s.messages } t
      (show onChunkMessages f s.messages = M ++ t by rw [hm]; exact heq) ht

theorem runAttempt_extend (run : StreamRun) (s : ChatState) (M l2 : List Msg)
    (hm : s.messages = M ++ l2) (h : l2 ≠ []) :
    ∃ t, t ≠ [] ∧ (runAttempt run s).messages = M ++ t := by
  cases run with
  | startFail err =>
    obtain ⟨t, ht, heq⟩ := errorMessages_extend M l2 h
    refine ⟨t, ht, ?_⟩
    simp only [runAttempt, applyStreamError_eq]
    rw [hm]
    exact heq
  | run reqId frags result =>
    have hms : (onStartUpdate reqId s).messages = M ++ l2 := by
      rw [onStartUpdate_eq]
      exact hm
    obtain ⟨t, ht, heq⟩ := applyFrags_extend frags (onStartUpdate reqId s) M l2 hms h
    cases result with
    | none => exact ⟨t, ht, heq⟩
    | some err =>
      obtain ⟨t2, ht2, heq2⟩ := errorMessages_extend M t ht
      refine ⟨t2, ht2, ?_⟩
      simp only [runAttempt, applyStreamError_eq]
      rw [heq]
      exact heq2

/-- `handleSubmit` never rewrites existing transcript entries: the result's
transcript is the input transcript, possibly extended. -/
theorem handleSubmit_messages (fresh : Option String) (run : StreamRun) (s : ChatState) :
    (handleSubmit fresh run s).1.messages = s.messages ∨
      ∃ t, (handleSubmit fresh run s).1.messages = s.messages ++ t := by
  by_cases hg : jsTrim s.input = "" ∨ s.isLoading = true
  · left
    unfold handleSubmit
    rw [if_pos hg]
  · have h1 : ¬ jsTrim s.input = "" := fun hx => hg (Or.inl hx)
    have h2 : s.isLoading = false := by
      cases hl : s.isLoading
      · rfl
      · exact absurd (Or.inr hl) hg
    right
    cases run with
    | startFail err =>
      rw [handleSubmit_startFail fresh err s h1 h2]
      simp only [applyStreamError_eq]
      obtain ⟨t, ht, heq⟩ := errorMessages_extend s.messages
        [⟨.user, jsTrim s.input, none⟩, ⟨.assistant, "", none⟩] (by simp)
      exact ⟨t, by simpa using heq⟩
    | run reqId frags result =>
      rw [handleSubmit_run fresh reqId frags result s h1 h2]
      cases result with
      | none => exact ⟨[⟨.user, jsTrim s.input, none⟩,
          ⟨.assistant, concatFrags frags, none⟩], by simp⟩
      | some err =>
        simp only [applyStreamError_eq]
        obtain ⟨t, ht, heq⟩ := errorMessages_extend s.messages
          [⟨.user, jsTrim s.input, none⟩, ⟨.assistant, concatFrags frags, none⟩] (by simp)
        exact ⟨t, by simpa using heq⟩

/-- `retryClick` never rewrites existing transcript entries either. -/
theorem retryClick_messages (run : StreamRun) (s : ChatState) :
    (retryClick run s).1.messages = s.messages ∨
      ∃ t, (retryClick run s).1.messages = s.messages ++ t := by
  cases hl : s.lastUserMessage with
  | none =>
    left
    simp [retryClick, hl]
  | some last =>
    cases hb : s.isLoading
    · right
      cases run with
      | startFail err =>
        rw [retryClick_startFail err s last hl hb]
        simp only [applyStreamError_eq]
        obtain ⟨t, ht, heq⟩ := errorMessages_extend s.messages
          [⟨.assistant, "", none⟩] (by simp)
        exact ⟨t, by simpa using heq⟩
      | run reqId frags result =>
        rw [retryClick_run reqId frags result s last hl hb]
        cases result with
        | none => exact ⟨[⟨.assistant, concatFrags frags, none⟩], by simp⟩
        | some err =>
          simp only [applyStreamError_eq]
          obtain ⟨t, ht, heq⟩ := errorMessages_extend s.messages
            [⟨.assistant, concatFrags frags, none⟩] (by simp)
          exact ⟨t, by simpa using heq⟩
    · left
      simp [retryClick, hl, hb]

theorem head?_append_left (M t : List Msg) (h : M ≠ []) : (M ++ t).head? = M.head? := by
  cases M with
  | nil => exact absurd rfl h
  | cons x xs => rfl

end Chat

namespace Claims

open Chat

/-- Claim C10: every state the chat page can reach has a non-empty transcript
whose first entry is the assistant greeting — the greeting is put there on
first render and no send, fragment delivery, failure, or retry ever removes or
rewrites it. -/
theorem C10_transcript_greeting (s : ChatState) (h : Reachable s) :
    s.messages ≠ [] ∧ s.messages.head? = some greetingMsg := by
  induction h with
  | init => exact ⟨by decide, rfl⟩
  | type t _ ih => exact ih
  | submit fresh run _ ih =>
    rcases handleSubmit_messages fresh run _ with heq | ⟨t, heq⟩
    · rw [heq]
      exact ih
    · rw [heq]
      exact ⟨by simp [ih.1], by rw [head?_append_left _ _ ih.1]; exact ih.2⟩
  | retry run _ ih =>
    rcases retryClick_messages run _ with heq | ⟨t, heq⟩
    · rw [heq]
      exact ih
    · rw [heq]
      exact ⟨by simp [ih.1], by rw [head?_append_left _ _ ih.1]; exact ih.2⟩

/-- Witness for C10 at a state reached by typing `"Hi"`, sending it through a
successful stream, and retrying (a no-op there): the transcript is non-empty
and still starts with the greeting. -/
theorem C10_transcript_greeting_witness :
    (retryClick (.startFail "boom")
          (handleSubmit (some "sid-1") (.run none ["Hello"] none)
            (setInput "Hi" initialState)).1).1.messages ≠ []
      ∧ (retryClick (.startFail "boom")
          (handleSubmit (some "sid-1") (.run none ["Hello"] none)
            (setInput "Hi" initialState)).1).1.messages.head? = some greetingMsg :=
  C10_transcript_greeting _
    (Reachable.retry (.startFail "boom")
      (Reachable.submit (some "sid-1") (.run none ["Hello"] none)
        (Reachable.type "Hi" Reachable.init)))

end Claims

